import Mathlib

/-!
# mizraith_TimerHelper

A shallow embedding of `mizraith_TimerHelper.cpp`: the Timer0/Timer1 setup
procedures as functions on an explicit register file, the binary-string
formatter `getBinaryString` as a function on a character buffer, and the two
report procedures as functions on a line-oriented output sink.

Machine integers are natural numbers reduced modulo `2^8` or `2^16` at every
store; the `int` parameters (16 bits wide on the AVR target) are integers.
-/

namespace TimerHelper

/-! ## Machine integers -/

/-- Value stored when an unsigned quantity is written to an 8-bit location
(`uint8_t` variable, 8-bit register or `uint8_t` parameter). -/
def toU8 (n : Nat) : Nat := n % 256

/-- Value stored when an unsigned quantity is written to a 16-bit register. -/
def toU16 (n : Nat) : Nat := n % 65536

/-- Value stored when an `int` is written to a 16-bit register: the
two's-complement reinterpretation of the integer. -/
def intToU16 (c : Int) : Nat := (c % 65536).toNat

/-! ## getBinaryString -/

/-- Body of the `for` loop of `getBinaryString` at index `i`:
`bitv = (byteval >> i) & 1`, then `bytestr[7-i]` receives `'0'` or `'1'`. -/
def getBinaryString.body (byteval : Nat) (bytestr : List Char) (i : Nat) : List Char :=
  let bitv := toU8 ((byteval >>> i) &&& 1)
  if bitv = 0 then
    bytestr.set (7 - i) '0'
  else
    bytestr.set (7 - i) '1'

/-- The procedure `getBinaryString(uint8_t byteval, char bytestr[])`: the loop
`for (i = 0; i < 8; i++)` run on the caller's buffer, returning the buffer. -/
def getBinaryString (byteval : Nat) (bytestr : List Char) : List Char :=
  (List.range 8).foldl (getBinaryString.body byteval) bytestr

/-! ## Reading a binary numeral (specification side) -/

/-- Value of one binary digit character. -/
def digitValue (c : Char) : Nat := if c = '1' then 1 else 0

/-- Value of a string of binary digits, most significant digit first. -/
def readBinary (cs : List Char) : Nat :=
  cs.foldl (fun acc c => 2 * acc + digitValue c) 0

/-- Character the specification assigns to bit `i` of `b`. -/
def bitChar (b i : Nat) : Char := if b.testBit i then '1' else '0'

/-- The 8-character binary string of `b` as the specification words it:
position `7 - i` holds the character of bit `i`. -/
def binaryString (b : Nat) : List Char :=
  [bitChar b 7, bitChar b 6, bitChar b 5, bitChar b 4,
   bitChar b 3, bitChar b 2, bitChar b 1, bitChar b 0]

/-! ## Register file -/

/-- The memory-mapped registers of Timer0 and Timer1 that the helper touches.
`TCNT1` and `OCR1A` are 16 bits wide, the others 8 bits. -/
structure Regs where
  TCCR0A : Nat
  TCCR0B : Nat
  TIMSK0 : Nat
  TCNT0 : Nat
  OCR0A : Nat
  TCCR1A : Nat
  TCCR1B : Nat
  TIMSK1 : Nat
  TCNT1 : Nat
  OCR1A : Nat

/-! Bit positions, read off the register layout comments of the source
(`TCCR0A = [COM0A1 COM0A0 COM0B1 COM0B0 x x WGM01 WGM00]`,
`TCCR0B = [FOC0A FOC0B x x WGM02 CS02 CS01 CS00]`,
`TIMSK0 = [x x x x x OCIE0B OCIE0A TOIE0]`,
`TCCR1A = [COM1A1 COM1A0 COM1B1 COM1B0 x x WGM11 WGM10]`,
`TCCR1B = [ICNC1 ICES1 x WGM13 WGM12 CS12 CS11 CS10]`,
`TIMSK1 = [x x ICIE1 x x OCIE1B OCIE1A TOIE1]`), leftmost bit being bit 7. -/

def WGM01 : Nat := 1
def CS02 : Nat := 2
def CS01 : Nat := 1
def CS00 : Nat := 0
def OCIE0A : Nat := 1
def COM1A1 : Nat := 7
def COM1A0 : Nat := 6
def WGM11 : Nat := 1
def WGM10 : Nat := 0
def WGM13 : Nat := 4
def WGM12 : Nat := 3
def CS12 : Nat := 2
def CS11 : Nat := 1
def CS10 : Nat := 0
def OCIE1A : Nat := 1

/-! ## Setup procedures -/

/-- The procedure `setupTimer0ForCounting(uint8_t count)`, one binding per
register write, in source order. -/
def setupTimer0ForCounting (count : Nat) (s : Regs) : Regs :=
  let s := { s with TCCR0A := 0 }
  let s := { s with TCCR0B := 0 }
  let s := { s with TIMSK0 := 0 }
  let s := { s with TCCR0A := toU8 (s.TCCR0A ||| (1 <<< WGM01)) }
  let s := { s with TCCR0B := toU8 (s.TCCR0B ||| (1 <<< CS02)) }
  let s := { s with TCCR0B := toU8 (s.TCCR0B ||| (1 <<< CS01)) }
  let s := { s with TCCR0B := toU8 (s.TCCR0B ||| (1 <<< CS00)) }
  let s := { s with TCNT0 := 0 }
  let s := { s with OCR0A := toU8 count }
  let s := { s with TIMSK0 := toU8 (s.TIMSK0 ||| (1 <<< OCIE0A)) }
  s

/-- The procedure `setupTimer1ForCounting(int count)`. -/
def setupTimer1ForCounting (count : Int) (s : Regs) : Regs :=
  let s := { s with TCCR1A := 0 }
  let s := { s with TCCR1B := 0 }
  let s := { s with TIMSK1 := 0 }
  let s := { s with TCCR1B := toU8 (s.TCCR1B ||| (1 <<< WGM12)) }
  let s := { s with TCCR1B := toU8 (s.TCCR1B ||| (1 <<< CS12)) }
  let s := { s with TCCR1B := toU8 (s.TCCR1B ||| (1 <<< CS11)) }
  let s := { s with TCCR1B := toU8 (s.TCCR1B ||| (1 <<< CS10)) }
  let s := { s with TCNT1 := 0 }
  let s := { s with OCR1A := intToU16 count }
  let s := { s with TIMSK1 := toU8 (s.TIMSK1 ||| (1 <<< OCIE1A)) }
  s

/-- The procedure `setupTimer1ForInternalPhaseCorrectPWM(int count)`. -/
def setupTimer1ForInternalPhaseCorrectPWM (count : Int) (s : Regs) : Regs :=
  let s := { s with TCCR1A := 0 }
  let s := { s with TCCR1B := 0 }
  let s := { s with TIMSK1 := 0 }
  let s := { s with TCCR1B := toU8 (s.TCCR1B ||| (1 <<< WGM13)) }
  let s := { s with TCCR1A := toU8 (s.TCCR1A ||| (1 <<< WGM11)) }
  let s := { s with TCCR1A := toU8 (s.TCCR1A ||| (1 <<< WGM10)) }
  let s := { s with TCCR1B := toU8 (s.TCCR1B ||| (1 <<< CS12)) }
  let s := { s with TCCR1B := toU8 (s.TCCR1B ||| (1 <<< CS10)) }
  let s := { s with TCCR1A := toU8 (s.TCCR1A ||| (1 <<< COM1A1)) }
  let s := { s with TCCR1A := toU8 (s.TCCR1A ||| (1 <<< COM1A0)) }
  let s := { s with TCNT1 := 0 }
  let s := { s with OCR1A := intToU16 count }
  let s := { s with TIMSK1 := toU8 (s.TIMSK1 ||| (1 <<< OCIE1A)) }
  s

/-- The procedure `setTimer1Count(int count)`. -/
def setTimer1Count (count : Int) (s : Regs) : Regs :=
  { s with OCR1A := intToU16 count }

/-! ## Diagnostic output -/

/-- Modelled from the spec: the diagnostic output boundary is a line-oriented
text sink. `Serial` belongs to the Arduino core, which is not part of this
repository; the sink keeps the lines already completed and the text of the
line being written. -/
structure SerialSink where
  lines : List String
  cur : String

/-- Modelled from the spec: `Serial.print(text)` adds `text` to the current line. -/
def Serial.print (text : String) (o : SerialSink) : SerialSink :=
  { o with cur := o.cur ++ text }

/-- Modelled from the spec: `Serial.println(text)` adds `text` to the current
line and completes it. -/
def Serial.println (text : String) (o : SerialSink) : SerialSink :=
  { lines := o.lines ++ [o.cur ++ text], cur := "" }

/-- The terminating character of a C string. -/
def NUL : Char := Char.ofNat 0

/-- Text of a C string stored in a character array: the characters before the
first terminator. -/
def cString (buf : List Char) : String :=
  String.mk (buf.takeWhile (fun c => c != NUL))

/-- The array `char bitstring[] = "00000000";` (eight digits and the terminator). -/
def bitstringInit : List Char :=
  ['0', '0', '0', '0', '0', '0', '0', '0', NUL]

/-- The procedure `printTimer0Info()`, reading the registers `s` and writing
to the sink `o`. -/
def printTimer0Info (s : Regs) (o : SerialSink) : SerialSink :=
  let bitstring := bitstringInit
  let o := Serial.println " " o
  let o := Serial.println "----- Timer1 Information -----" o
  let o := Serial.print "TCCR0A: " o
  let bitstring := getBinaryString (toU8 s.TCCR0A) bitstring
  let o := Serial.println (cString bitstring) o
  let o := Serial.print "TCCR0B: " o
  let bitstring := getBinaryString (toU8 s.TCCR0B) bitstring
  let o := Serial.println (cString bitstring) o
  let o := Serial.print "TIMSK0: " o
  let bitstring := getBinaryString (toU8 s.TIMSK0) bitstring
  let o := Serial.println (cString bitstring) o
  let o := Serial.println "------------------------------" o
  let o := Serial.println " " o
  o

/-- The procedure `printTimer1Info()`; `OCR1A` is narrowed to `uint8_t` by the
call of `getBinaryString`. -/
def printTimer1Info (s : Regs) (o : SerialSink) : SerialSink :=
  let bitstring := bitstringInit
  let o := Serial.println " " o
  let o := Serial.println "----- Timer1 Information -----" o
  let o := Serial.print "TCCR1A: " o
  let bitstring := getBinaryString (toU8 s.TCCR1A) bitstring
  let o := Serial.println (cString bitstring) o
  let o := Serial.print "TCCR1B: " o
  let bitstring := getBinaryString (toU8 s.TCCR1B) bitstring
  let o := Serial.println (cString bitstring) o
  let o := Serial.print "TIMSK1: " o
  let bitstring := getBinaryString (toU8 s.TIMSK1) bitstring
  let o := Serial.println (cString bitstring) o
  let o := Serial.print "OCR1A : " o
  let bitstring := getBinaryString (toU8 s.OCR1A) bitstring
  let o := Serial.println (cString bitstring) o
  let o := Serial.println "------------------------------" o
  let o := Serial.println " " o
  o

/-- Lines a report procedure added to a sink that held `before` completed lines. -/
def emitted (before : SerialSink) (after : SerialSink) : List String :=
  after.lines.drop before.lines.length

/-- A labeled report line as the specification words it: the label followed
by the 8-character binary string of the low 8 bits of the register value. -/
def reportLine (label : String) (v : Nat) : String :=
  label ++ String.mk (binaryString (v % 256))

/-- Label of a report line: the characters before the colon. -/
def labelOf (line : String) : List Char :=
  line.data.takeWhile (fun c => c != ':')

/-- Opening banner sent by both report procedures. -/
def openingBanner : String := "----- Timer1 Information -----"

/-- Closing banner sent by both report procedures. -/
def closingBanner : String := "------------------------------"

end TimerHelper

namespace TimerHelper

/-! ## getBinaryString: the buffer after the call -/

theorem body_bit (b i : Nat) (buf : List Char) :
    getBinaryString.body b buf i = buf.set (7 - i) (bitChar b i) := by
  unfold getBinaryString.body bitChar toU8
  have h1 : (b >>> i) &&& 1 = b / 2 ^ i % 2 := by
    rw [Nat.and_one_is_mod, Nat.shiftRight_eq_div_pow]
  have h2 : b.testBit i = decide (b / 2 ^ i % 2 = 1) := Nat.testBit_to_div_mod
  rw [h1, h2]
  have h3 : b / 2 ^ i % 2 < 2 := Nat.mod_lt _ (by decide)
  rcases Nat.lt_succ_iff_lt_or_eq.mp h3 with h | h
  · have h0 : b / 2 ^ i % 2 = 0 := by omega
    simp [h0]
  · simp [h]

theorem getBinaryString_cons (b : Nat) (c0 c1 c2 c3 c4 c5 c6 c7 : Char) (rest : List Char) :
    getBinaryString b (c0 :: c1 :: c2 :: c3 :: c4 :: c5 :: c6 :: c7 :: rest)
      = binaryString b ++ rest := by
  simp [getBinaryString, List.range, List.range.loop, body_bit, binaryString]

theorem exists_cons8 (buf : List Char) (h : 8 ≤ buf.length) :
    ∃ c0 c1 c2 c3 c4 c5 c6 c7 rest,
      buf = c0 :: c1 :: c2 :: c3 :: c4 :: c5 :: c6 :: c7 :: rest := by
  match buf, h with
  | c0 :: c1 :: c2 :: c3 :: c4 :: c5 :: c6 :: c7 :: rest, _ =>
    exact ⟨c0, c1, c2, c3, c4, c5, c6, c7, rest, rfl⟩

theorem getBinaryString_eq (b : Nat) (buf : List Char) (h : 8 ≤ buf.length) :
    getBinaryString b buf = binaryString b ++ buf.drop 8 := by
  obtain ⟨c0, c1, c2, c3, c4, c5, c6, c7, rest, rfl⟩ := exists_cons8 buf h
  rw [getBinaryString_cons]
  rfl

theorem binaryString_getElem (b : Nat) (rest : List Char) (i : Nat) (hi : i < 8) :
    (binaryString b ++ rest)[7 - i]? = some (bitChar b i) := by
  interval_cases i <;> simp [binaryString]

theorem bitChar_cases (b i : Nat) : bitChar b i = '0' ∨ bitChar b i = '1' := by
  unfold bitChar
  cases b.testBit i <;> simp

theorem bitChar_eq_one (b i : Nat) : bitChar b i = '1' ↔ b.testBit i = true := by
  unfold bitChar
  cases b.testBit i <;> simp

theorem digitValue_bitChar (b i : Nat) : digitValue (bitChar b i) = b / 2 ^ i % 2 := by
  unfold digitValue bitChar
  have h2 : b.testBit i = decide (b / 2 ^ i % 2 = 1) := Nat.testBit_to_div_mod
  have h3 : b / 2 ^ i % 2 < 2 := Nat.mod_lt _ (by decide)
  rcases Nat.lt_succ_iff_lt_or_eq.mp h3 with h | h
  · have h0 : b / 2 ^ i % 2 = 0 := by omega
    simp [h2, h0]
  · simp [h2, h]

theorem readBinary_binaryString (b : Nat) (hb : b < 256) : readBinary (binaryString b) = b := by
  simp only [readBinary, binaryString, List.foldl, digitValue_bitChar]
  norm_num
  omega

/-- C1: for every byte `b` and every prior content of a buffer of at least
eight characters, after `getBinaryString b buf` the character at position
`7 - i` is `'1'` exactly when bit `i` of `b` is set and `'0'` exactly when it is
clear, the first eight characters read as a base-2 numeral (most significant
digit first) give `b` back, the characters beyond the eighth are untouched, and
7, 0 and 255 give "00000111", "00000000" and "11111111". -/
theorem getBinaryString_roundtrip (b : Nat) (hb : b < 256) (buf : List Char)
    (hlen : 8 ≤ buf.length) :
    (∀ i : Fin 8,
        ((getBinaryString b buf)[7 - i.val]? = some '1' ↔ b.testBit i.val = true) ∧
        ((getBinaryString b buf)[7 - i.val]? = some '0' ↔ b.testBit i.val = false)) ∧
    readBinary ((getBinaryString b buf).take 8) = b ∧
    (getBinaryString b buf).length = buf.length ∧
    (getBinaryString b buf).drop 8 = buf.drop 8 ∧
    (getBinaryString 7 buf).take 8 = ['0', '0', '0', '0', '0', '1', '1', '1'] ∧
    (getBinaryString 0 buf).take 8 = ['0', '0', '0', '0', '0', '0', '0', '0'] ∧
    (getBinaryString 255 buf).take 8 = ['1', '1', '1', '1', '1', '1', '1', '1'] := by
  obtain ⟨c0, c1, c2, c3, c4, c5, c6, c7, rest, rfl⟩ := exists_cons8 buf hlen
  simp only [getBinaryString_cons]
  refine ⟨?_, ?_, ?_, ?_, rfl, rfl, rfl⟩
  · intro i
    have hone := bitChar_eq_one b i.val
    have hcases := bitChar_cases b i.val
    have hget : (binaryString b ++ rest)[7 - i.val]? = some (bitChar b i.val) :=
      binaryString_getElem b rest i.val i.isLt
    rw [hget]
    constructor
    · simpa using hone
    · rcases hcases with h0 | h1
      · have hne : ¬ (b.testBit i.val = true) := by
          intro ht
          have := hone.mpr ht
          rw [h0] at this
          exact absurd this (by decide)
        simp [h0, hne]
      · have ht := hone.mp h1
        simp [h1, ht]
  · have htake : (binaryString b ++ rest).take 8 = binaryString b := by
      simp [binaryString]
    rw [htake]
    exact readBinary_binaryString b hb
  · simp [binaryString]
  · simp [binaryString]

/-- Witness of C1 at the byte 5 and the prior buffer "garbage!". -/
theorem getBinaryString_roundtrip_witness :
    5 < 256 ∧ 8 ≤ ['g', 'a', 'r', 'b', 'a', 'g', 'e', '!'].length ∧
    readBinary ((getBinaryString 5 ['g', 'a', 'r', 'b', 'a', 'g', 'e', '!']).take 8) = 5 :=
  ⟨by decide, by decide,
    (getBinaryString_roundtrip 5 (by decide) ['g', 'a', 'r', 'b', 'a', 'g', 'e', '!']
      (by decide)).2.1⟩

/-- C8 as stated fails: called with the byte 8 on the report buffer,
`getBinaryString` does not leave the string "00000111". -/
theorem docExample_eight_counterexample :
    ¬ (cString (getBinaryString 8 bitstringInit) = "00000111") := by
  decide

/-- C8 amended: called with the byte 8, `getBinaryString` loads the first eight
characters of any buffer with "00001000"; "00000111" is what the byte 7 loads. -/
theorem getBinaryString_eight (c0 c1 c2 c3 c4 c5 c6 c7 : Char) (rest : List Char) :
    getBinaryString 8 (c0 :: c1 :: c2 :: c3 :: c4 :: c5 :: c6 :: c7 :: rest)
      = ['0', '0', '0', '0', '1', '0', '0', '0'] ++ rest ∧
    getBinaryString 7 (c0 :: c1 :: c2 :: c3 :: c4 :: c5 :: c6 :: c7 :: rest)
      = ['0', '0', '0', '0', '0', '1', '1', '1'] ++ rest ∧
    cString (getBinaryString 8 bitstringInit) = "00001000" ∧
    cString (getBinaryString 7 bitstringInit) = "00000111" := by
  simp only [getBinaryString_cons]
  exact ⟨rfl, rfl, by decide, by decide⟩

/-! ## Setup procedures: the registers after the call -/

theorem intToU16_cast (count : Int) : (intToU16 count : Int) = count % 65536 := by
  unfold intToU16
  exact Int.toNat_of_nonneg (Int.emod_nonneg count (by decide))

/-- C2: for every 8-bit count and every prior register state, after
`setupTimer0ForCounting count` the compare register `OCR0A` equals `count`,
`TCNT0` is 0, `TIMSK0` is exactly `0b00000010` (only `OCIE0A`), `TCCR0A` is
exactly `0b00000010` (only `WGM01`) and `TCCR0B` is exactly `0b00000111` (only
`CS02`, `CS01`, `CS00`); the count 100 gives `OCR0A = 100`. -/
theorem setupTimer0ForCounting_registers (count : Nat) (hcount : count < 256) (s : Regs) :
    (setupTimer0ForCounting count s).OCR0A = count ∧
    (setupTimer0ForCounting count s).TCNT0 = 0 ∧
    (setupTimer0ForCounting count s).TIMSK0 = 0b00000010 ∧
    (setupTimer0ForCounting count s).TIMSK0 = 2 ^ OCIE0A ∧
    (setupTimer0ForCounting count s).TCCR0A = 0b00000010 ∧
    (setupTimer0ForCounting count s).TCCR0A = 2 ^ WGM01 ∧
    (setupTimer0ForCounting count s).TCCR0B = 0b00000111 ∧
    (setupTimer0ForCounting count s).TCCR0B = 2 ^ CS02 + 2 ^ CS01 + 2 ^ CS00 ∧
    (setupTimer0ForCounting 100 s).OCR0A = 100 := by
  have hmod : count % 256 = count := Nat.mod_eq_of_lt hcount
  simp [setupTimer0ForCounting, toU8, WGM01, CS02, CS01, CS00, OCIE0A, hmod]

/-- Witness of C2 at the count 100 and a register state holding 9 everywhere. -/
theorem setupTimer0ForCounting_registers_witness :
    100 < 256 ∧ (setupTimer0ForCounting 100 ⟨9, 9, 9, 9, 9, 9, 9, 9, 9, 9⟩).OCR0A = 100 :=
  ⟨by decide,
    (setupTimer0ForCounting_registers 100 (by decide) ⟨9, 9, 9, 9, 9, 9, 9, 9, 9, 9⟩).1⟩

/-- C3: for every signed 16-bit count and every prior register state, after
`setupTimer1ForCounting count` the counter `TCNT1` is 0, `TCCR1A` is 0,
`TCCR1B` is exactly `0b00001111` (only `WGM12`, `CS12`, `CS11`, `CS10`),
`TIMSK1` is exactly `0b00000010` (only `OCIE1A`) and `OCR1A` holds
`count mod 65536`: `count` itself when `count ≥ 0`, `count + 65536` when
`count < 0`; 1000 gives 1000 and -1 gives 65535. -/
theorem setupTimer1ForCounting_registers (count : Int) (hlo : -32768 ≤ count)
    (hhi : count < 32768) (s : Regs) :
    (setupTimer1ForCounting count s).TCNT1 = 0 ∧
    (setupTimer1ForCounting count s).TCCR1A = 0 ∧
    (setupTimer1ForCounting count s).TCCR1B = 0b00001111 ∧
    (setupTimer1ForCounting count s).TCCR1B = 2 ^ WGM12 + 2 ^ CS12 + 2 ^ CS11 + 2 ^ CS10 ∧
    (setupTimer1ForCounting count s).TIMSK1 = 0b00000010 ∧
    (setupTimer1ForCounting count s).TIMSK1 = 2 ^ OCIE1A ∧
    ((setupTimer1ForCounting count s).OCR1A : Int) = count % 65536 ∧
    (0 ≤ count → ((setupTimer1ForCounting count s).OCR1A : Int) = count) ∧
    (count < 0 → ((setupTimer1ForCounting count s).OCR1A : Int) = count + 65536) ∧
    (setupTimer1ForCounting 1000 s).OCR1A = 1000 ∧
    (setupTimer1ForCounting (-1) s).OCR1A = 65535 := by
  have hocr : ((setupTimer1ForCounting count s).OCR1A : Int) = count % 65536 :=
    intToU16_cast count
  have hctl : (setupTimer1ForCounting count s).TCNT1 = 0 ∧
      (setupTimer1ForCounting count s).TCCR1A = 0 ∧
      (setupTimer1ForCounting count s).TCCR1B = 0b00001111 ∧
      (setupTimer1ForCounting count s).TCCR1B = 2 ^ WGM12 + 2 ^ CS12 + 2 ^ CS11 + 2 ^ CS10 ∧
      (setupTimer1ForCounting count s).TIMSK1 = 0b00000010 ∧
      (setupTimer1ForCounting count s).TIMSK1 = 2 ^ OCIE1A := by
    simp [setupTimer1ForCounting, toU8, WGM12, CS12, CS11, CS10, OCIE1A]
  obtain ⟨h1, h2, h3, h4, h5, h6⟩ := hctl
  refine ⟨h1, h2, h3, h4, h5, h6, hocr, ?_, ?_, ?_, ?_⟩
  · intro h
    rw [hocr]
    omega
  · intro h
    rw [hocr]
    omega
  · simp [setupTimer1ForCounting, intToU16]
  · simp [setupTimer1ForCounting, intToU16]

/-- Witness of C3 at the count -2 and a register state holding 9 everywhere. -/
theorem setupTimer1ForCounting_registers_witness :
    (-32768 : Int) ≤ -2 ∧ (-2 : Int) < 32768 ∧ (-2 : Int) < 0 ∧
    ((setupTimer1ForCounting (-2) ⟨9, 9, 9, 9, 9, 9, 9, 9, 9, 9⟩).OCR1A : Int)
      = -2 + 65536 :=
  ⟨by decide, by decide, by decide,
    (setupTimer1ForCounting_registers (-2) (by decide) (by decide)
      ⟨9, 9, 9, 9, 9, 9, 9, 9, 9, 9⟩).2.2.2.2.2.2.2.2.1 (by decide)⟩

/-- C4: for every count and every prior register state, after
`setupTimer1ForInternalPhaseCorrectPWM count` the bits
`WGM13:WGM12:WGM11:WGM10` read `1011`, `CS12:CS11:CS10` read `101`,
`COM1A1:COM1A0` read `11` and no other control bit is set, so
`TCCR1A = 0b11000011` and `TCCR1B = 0b00010101`; `TIMSK1 = 0b00000010`,
`TCNT1 = 0` and `OCR1A = count mod 65536`. -/
theorem setupTimer1ForInternalPhaseCorrectPWM_registers (count : Int) (s : Regs) :
    ((setupTimer1ForInternalPhaseCorrectPWM count s).TCCR1B.testBit WGM13 = true ∧
     (setupTimer1ForInternalPhaseCorrectPWM count s).TCCR1B.testBit WGM12 = false ∧
     (setupTimer1ForInternalPhaseCorrectPWM count s).TCCR1A.testBit WGM11 = true ∧
     (setupTimer1ForInternalPhaseCorrectPWM count s).TCCR1A.testBit WGM10 = true) ∧
    ((setupTimer1ForInternalPhaseCorrectPWM count s).TCCR1B.testBit CS12 = true ∧
     (setupTimer1ForInternalPhaseCorrectPWM count s).TCCR1B.testBit CS11 = false ∧
     (setupTimer1ForInternalPhaseCorrectPWM count s).TCCR1B.testBit CS10 = true) ∧
    ((setupTimer1ForInternalPhaseCorrectPWM count s).TCCR1A.testBit COM1A1 = true ∧
     (setupTimer1ForInternalPhaseCorrectPWM count s).TCCR1A.testBit COM1A0 = true) ∧
    (setupTimer1ForInternalPhaseCorrectPWM count s).TCCR1A = 0b11000011 ∧
    (setupTimer1ForInternalPhaseCorrectPWM count s).TCCR1A
      = 2 ^ COM1A1 + 2 ^ COM1A0 + 2 ^ WGM11 + 2 ^ WGM10 ∧
    (setupTimer1ForInternalPhaseCorrectPWM count s).TCCR1B = 0b00010101 ∧
    (setupTimer1ForInternalPhaseCorrectPWM count s).TCCR1B = 2 ^ WGM13 + 2 ^ CS12 + 2 ^ CS10 ∧
    (setupTimer1ForInternalPhaseCorrectPWM count s).TIMSK1 = 0b00000010 ∧
    (setupTimer1ForInternalPhaseCorrectPWM count s).TIMSK1 = 2 ^ OCIE1A ∧
    (setupTimer1ForInternalPhaseCorrectPWM count s).TCNT1 = 0 ∧
    ((setupTimer1ForInternalPhaseCorrectPWM count s).OCR1A : Int) = count % 65536 ∧
    (setupTimer1ForInternalPhaseCorrectPWM count s).OCR1A < 65536 := by
  have hocr : ((setupTimer1ForInternalPhaseCorrectPWM count s).OCR1A : Int) = count % 65536 :=
    intToU16_cast count
  have hlt : (setupTimer1ForInternalPhaseCorrectPWM count s).OCR1A < 65536 := by
    omega
  have hA : (setupTimer1ForInternalPhaseCorrectPWM count s).TCCR1A = 0b11000011 := by
    simp [setupTimer1ForInternalPhaseCorrectPWM, toU8, WGM11, WGM10, COM1A1, COM1A0]
  have hB : (setupTimer1ForInternalPhaseCorrectPWM count s).TCCR1B = 0b00010101 := by
    simp [setupTimer1ForInternalPhaseCorrectPWM, toU8, WGM13, CS12, CS10]
  have hM : (setupTimer1ForInternalPhaseCorrectPWM count s).TIMSK1 = 0b00000010 := by
    simp [setupTimer1ForInternalPhaseCorrectPWM, toU8, OCIE1A]
  rw [hA, hB, hM]
  exact ⟨by decide, by decide, by decide, rfl, rfl, rfl, rfl, rfl, rfl, rfl, hocr, hlt⟩

/-- C5: for every register state and every count, `setTimer1Count count`
changes only `OCR1A`, which becomes `count mod 65536`; `TCCR1A`, `TCCR1B`,
`TIMSK1`, `TCNT1` and every Timer0 register are as before the call. -/
theorem setTimer1Count_frame (count : Int) (s : Regs) :
    ((setTimer1Count count s).OCR1A : Int) = count % 65536 ∧
    (setTimer1Count count s).TCCR1A = s.TCCR1A ∧
    (setTimer1Count count s).TCCR1B = s.TCCR1B ∧
    (setTimer1Count count s).TIMSK1 = s.TIMSK1 ∧
    (setTimer1Count count s).TCNT1 = s.TCNT1 ∧
    (setTimer1Count count s).TCCR0A = s.TCCR0A ∧
    (setTimer1Count count s).TCCR0B = s.TCCR0B ∧
    (setTimer1Count count s).TIMSK0 = s.TIMSK0 ∧
    (setTimer1Count count s).TCNT0 = s.TCNT0 ∧
    (setTimer1Count count s).OCR0A = s.OCR0A :=
  ⟨intToU16_cast count, rfl, rfl, rfl, rfl, rfl, rfl, rfl, rfl, rfl⟩

/-- C6: each setup procedure run twice in succession with the same count
yields the register state of a single run, and the control, mask, counter and
compare registers of its target timer after a run are the same from any two
prior states. -/
theorem setup_idempotent (count0 : Nat) (count : Int) (s s' : Regs) :
    (setupTimer0ForCounting count0 (setupTimer0ForCounting count0 s)
        = setupTimer0ForCounting count0 s ∧
      (setupTimer0ForCounting count0 s).TCCR0A = (setupTimer0ForCounting count0 s').TCCR0A ∧
      (setupTimer0ForCounting count0 s).TCCR0B = (setupTimer0ForCounting count0 s').TCCR0B ∧
      (setupTimer0ForCounting count0 s).TIMSK0 = (setupTimer0ForCounting count0 s').TIMSK0 ∧
      (setupTimer0ForCounting count0 s).TCNT0 = (setupTimer0ForCounting count0 s').TCNT0 ∧
      (setupTimer0ForCounting count0 s).OCR0A = (setupTimer0ForCounting count0 s').OCR0A) ∧
    (setupTimer1ForCounting count (setupTimer1ForCounting count s)
        = setupTimer1ForCounting count s ∧
      (setupTimer1ForCounting count s).TCCR1A = (setupTimer1ForCounting count s').TCCR1A ∧
      (setupTimer1ForCounting count s).TCCR1B = (setupTimer1ForCounting count s').TCCR1B ∧
      (setupTimer1ForCounting count s).TIMSK1 = (setupTimer1ForCounting count s').TIMSK1 ∧
      (setupTimer1ForCounting count s).TCNT1 = (setupTimer1ForCounting count s').TCNT1 ∧
      (setupTimer1ForCounting count s).OCR1A = (setupTimer1ForCounting count s').OCR1A) ∧
    (setupTimer1ForInternalPhaseCorrectPWM count (setupTimer1ForInternalPhaseCorrectPWM count s)
        = setupTimer1ForInternalPhaseCorrectPWM count s ∧
      (setupTimer1ForInternalPhaseCorrectPWM count s).TCCR1A
        = (setupTimer1ForInternalPhaseCorrectPWM count s').TCCR1A ∧
      (setupTimer1ForInternalPhaseCorrectPWM count s).TCCR1B
        = (setupTimer1ForInternalPhaseCorrectPWM count s').TCCR1B ∧
      (setupTimer1ForInternalPhaseCorrectPWM count s).TIMSK1
        = (setupTimer1ForInternalPhaseCorrectPWM count s').TIMSK1 ∧
      (setupTimer1ForInternalPhaseCorrectPWM count s).TCNT1
        = (setupTimer1ForInternalPhaseCorrectPWM count s').TCNT1 ∧
      (setupTimer1ForInternalPhaseCorrectPWM count s).OCR1A
        = (setupTimer1ForInternalPhaseCorrectPWM count s').OCR1A) :=
  ⟨⟨rfl, rfl, rfl, rfl, rfl, rfl⟩, ⟨rfl, rfl, rfl, rfl, rfl, rfl⟩,
    ⟨rfl, rfl, rfl, rfl, rfl, rfl⟩⟩

/-- C9: for every count and every register state, `setupTimer0ForCounting`
leaves `TCCR1A`, `TCCR1B`, `TIMSK1`, `TCNT1` and `OCR1A` unchanged, and
`setupTimer1ForCounting` and `setupTimer1ForInternalPhaseCorrectPWM` each leave
`TCCR0A`, `TCCR0B`, `TIMSK0`, `TCNT0` and `OCR0A` unchanged. -/
theorem setup_isolation (count0 : Nat) (count : Int) (s : Regs) :
    ((setupTimer0ForCounting count0 s).TCCR1A = s.TCCR1A ∧
      (setupTimer0ForCounting count0 s).TCCR1B = s.TCCR1B ∧
      (setupTimer0ForCounting count0 s).TIMSK1 = s.TIMSK1 ∧
      (setupTimer0ForCounting count0 s).TCNT1 = s.TCNT1 ∧
      (setupTimer0ForCounting count0 s).OCR1A = s.OCR1A) ∧
    ((setupTimer1ForCounting count s).TCCR0A = s.TCCR0A ∧
      (setupTimer1ForCounting count s).TCCR0B = s.TCCR0B ∧
      (setupTimer1ForCounting count s).TIMSK0 = s.TIMSK0 ∧
      (setupTimer1ForCounting count s).TCNT0 = s.TCNT0 ∧
      (setupTimer1ForCounting count s).OCR0A = s.OCR0A) ∧
    ((setupTimer1ForInternalPhaseCorrectPWM count s).TCCR0A = s.TCCR0A ∧
      (setupTimer1ForInternalPhaseCorrectPWM count s).TCCR0B = s.TCCR0B ∧
      (setupTimer1ForInternalPhaseCorrectPWM count s).TIMSK0 = s.TIMSK0 ∧
      (setupTimer1ForInternalPhaseCorrectPWM count s).TCNT0 = s.TCNT0 ∧
      (setupTimer1ForInternalPhaseCorrectPWM count s).OCR0A = s.OCR0A) :=
  ⟨⟨rfl, rfl, rfl, rfl, rfl⟩, ⟨rfl, rfl, rfl, rfl, rfl⟩, ⟨rfl, rfl, rfl, rfl, rfl⟩⟩

/-! ## Reports -/

theorem bitChar_ne_NUL (b i : Nat) : (bitChar b i != NUL) = true := by
  rcases bitChar_cases b i with h | h <;> rw [h] <;> decide

theorem cString_binaryString (b : Nat) :
    cString (binaryString b ++ [NUL]) = String.mk (binaryString b) := by
  simp [cString, binaryString, List.takeWhile, bitChar_ne_NUL]

theorem getBinaryString_bitstringInit (b : Nat) :
    getBinaryString b bitstringInit = binaryString b ++ [NUL] := by
  unfold bitstringInit
  rw [getBinaryString_cons]

theorem getBinaryString_reuse (b b' : Nat) :
    getBinaryString b (binaryString b' ++ [NUL]) = binaryString b ++ [NUL] := by
  unfold binaryString
  exact getBinaryString_cons b _ _ _ _ _ _ _ _ [NUL]

theorem printTimer0Info_eq (s : Regs) (o : SerialSink) :
    printTimer0Info s o =
      { lines := o.lines ++
          [o.cur ++ " ", openingBanner,
           reportLine "TCCR0A: " s.TCCR0A, reportLine "TCCR0B: " s.TCCR0B,
           reportLine "TIMSK0: " s.TIMSK0,
           closingBanner, " "],
        cur := "" } := by
  simp [printTimer0Info, Serial.print, Serial.println, getBinaryString_bitstringInit,
    getBinaryString_reuse, cString_binaryString, reportLine, toU8, openingBanner,
    closingBanner]

theorem printTimer1Info_eq (s : Regs) (o : SerialSink) :
    printTimer1Info s o =
      { lines := o.lines ++
          [o.cur ++ " ", openingBanner,
           reportLine "TCCR1A: " s.TCCR1A, reportLine "TCCR1B: " s.TCCR1B,
           reportLine "TIMSK1: " s.TIMSK1, reportLine "OCR1A : " s.OCR1A,
           closingBanner, " "],
        cur := "" } := by
  simp [printTimer1Info, Serial.print, Serial.println, getBinaryString_bitstringInit,
    getBinaryString_reuse, cString_binaryString, reportLine, toU8, openingBanner,
    closingBanner]

theorem emitted_printTimer0Info (s : Regs) (o : SerialSink) :
    emitted o (printTimer0Info s o) =
      [o.cur ++ " ", openingBanner,
       reportLine "TCCR0A: " s.TCCR0A, reportLine "TCCR0B: " s.TCCR0B,
       reportLine "TIMSK0: " s.TIMSK0,
       closingBanner, " "] := by
  rw [printTimer0Info_eq]
  simp [emitted]

theorem emitted_printTimer1Info (s : Regs) (o : SerialSink) :
    emitted o (printTimer1Info s o) =
      [o.cur ++ " ", openingBanner,
       reportLine "TCCR1A: " s.TCCR1A, reportLine "TCCR1B: " s.TCCR1B,
       reportLine "TIMSK1: " s.TIMSK1, reportLine "OCR1A : " s.OCR1A,
       closingBanner, " "] := by
  rw [printTimer1Info_eq]
  simp [emitted]

theorem printTimer1Info_congr (s s' : Regs) (o : SerialSink)
    (hA : s.TCCR1A = s'.TCCR1A) (hB : s.TCCR1B = s'.TCCR1B) (hM : s.TIMSK1 = s'.TIMSK1)
    (hO : s.OCR1A % 256 = s'.OCR1A % 256) :
    printTimer1Info s o = printTimer1Info s' o := by
  rw [printTimer1Info_eq, printTimer1Info_eq]
  unfold reportLine
  rw [hA, hB, hM, hO]

/-- C7: for every register state and sink, `printTimer0Info` emits between its
opening and closing banners exactly the three labeled lines `TCCR0A`, `TCCR0B`,
`TIMSK0`, and `printTimer1Info` exactly the four labeled lines `TCCR1A`,
`TCCR1B`, `TIMSK1`, `OCR1A`, each carrying the 8-character binary string of
the low 8 bits of the named register; for `OCR1A` this is the string of
`OCR1A mod 256`, so adding a multiple of 256 to `OCR1A` leaves the report
unchanged, and `OCR1A = 1000` and `OCR1A = 232` both print "11101000". -/
theorem printTimerInfo_lines (s : Regs) (o : SerialSink) (k : Nat) :
    emitted o (printTimer0Info s o) =
      [o.cur ++ " ", "----- Timer1 Information -----",
       "TCCR0A: " ++ String.mk (binaryString (s.TCCR0A % 256)),
       "TCCR0B: " ++ String.mk (binaryString (s.TCCR0B % 256)),
       "TIMSK0: " ++ String.mk (binaryString (s.TIMSK0 % 256)),
       "------------------------------", " "] ∧
    emitted o (printTimer1Info s o) =
      [o.cur ++ " ", "----- Timer1 Information -----",
       "TCCR1A: " ++ String.mk (binaryString (s.TCCR1A % 256)),
       "TCCR1B: " ++ String.mk (binaryString (s.TCCR1B % 256)),
       "TIMSK1: " ++ String.mk (binaryString (s.TIMSK1 % 256)),
       "OCR1A : " ++ String.mk (binaryString (s.OCR1A % 256)),
       "------------------------------", " "] ∧
    (printTimer0Info s o).lines = o.lines ++ emitted o (printTimer0Info s o) ∧
    (printTimer1Info s o).lines = o.lines ++ emitted o (printTimer1Info s o) ∧
    printTimer1Info { s with OCR1A := s.OCR1A + 256 * k } o = printTimer1Info s o ∧
    printTimer1Info { s with OCR1A := 1000 } o = printTimer1Info { s with OCR1A := 232 } o ∧
    (emitted o (printTimer1Info { s with OCR1A := 1000 } o))[5]? = some "OCR1A : 11101000" ∧
    (emitted o (printTimer1Info { s with OCR1A := 232 } o))[5]? = some "OCR1A : 11101000" := by
  refine ⟨emitted_printTimer0Info s o, emitted_printTimer1Info s o, ?_, ?_, ?_, ?_, ?_, ?_⟩
  · rw [emitted_printTimer0Info, printTimer0Info_eq]
  · rw [emitted_printTimer1Info, printTimer1Info_eq]
  · exact printTimer1Info_congr _ _ o rfl rfl rfl (Nat.add_mul_mod_self_left _ _ _)
  · exact printTimer1Info_congr _ _ o rfl rfl rfl (show (1000 : Nat) % 256 = 232 % 256 from rfl)
  · have h : reportLine "OCR1A : " 1000 = "OCR1A : 11101000" := by decide
    rw [emitted_printTimer1Info]
    simp [h]
  · have h : reportLine "OCR1A : " 232 = "OCR1A : 11101000" := by decide
    rw [emitted_printTimer1Info]
    simp [h]

/-- C10: for every register state and sink, the opening banner line emitted by
`printTimer0Info` is the same text as the one emitted by `printTimer1Info`,
namely "----- Timer1 Information -----"; the lines before and after the labeled
lines coincide in the two reports, whose labeled lines carry the labels
`TCCR0A`, `TCCR0B`, `TIMSK0` and `TCCR1A`, `TCCR1B`, `TIMSK1`, `OCR1A`. -/
theorem printTimer0Info_banner (s s' : Regs) (o : SerialSink) :
    (emitted o (printTimer0Info s o))[1]? = some "----- Timer1 Information -----" ∧
    (emitted o (printTimer1Info s' o))[1]? = some "----- Timer1 Information -----" ∧
    (emitted o (printTimer0Info s o)).take 2 = (emitted o (printTimer1Info s' o)).take 2 ∧
    (emitted o (printTimer0Info s o)).drop 5 = (emitted o (printTimer1Info s' o)).drop 6 ∧
    (((emitted o (printTimer0Info s o)).drop 2).take 3).map labelOf =
      ["TCCR0A".data, "TCCR0B".data, "TIMSK0".data] ∧
    (((emitted o (printTimer1Info s' o)).drop 2).take 4).map labelOf =
      ["TCCR1A".data, "TCCR1B".data, "TIMSK1".data, "OCR1A ".data] := by
  rw [emitted_printTimer0Info, emitted_printTimer1Info]
  refine ⟨rfl, rfl, rfl, rfl, ?_, ?_⟩
  · simp [labelOf, reportLine, List.takeWhile]
  · simp [labelOf, reportLine, List.takeWhile]

end TimerHelper
